import Mathlib

/-!
Shallow embedding of `acestep/core/generation/handler/lora_manager.py`
(class `LoraManagerMixin`) and proofs about its LoRA-adapter lifecycle
operations: `load_lora`, `unload_lora`, `set_use_lora`, `set_lora_scale`,
`get_lora_status`.

Modelling choices:
- Python floats are modelled as exact rationals (`ℚ`); the claims under
  study are about clamping, multiplication and equality of stored values,
  not about binary rounding.
- The external collaborators (filesystem, the PEFT library, tensor
  device/precision placement) are modelled by an `Env` oracle record: a
  list of existing filesystem paths, the decoder value returned by
  `PeftModel.from_pretrained` (or `none` when that call raises) and flags
  for the points where the library interaction can raise an exception.
  Exceptions raised by `enable_adapter_layers` / `disable_adapter_layers`
  and by the per-module `set_scale` / `scale_layer` methods are flags on
  the decoder/module records, since they are behaviours of those objects.
- `self.model` is modelled as `Option Decoder` (its only field read by
  this mixin is `.decoder`); `device`/`dtype` only feed the opaque
  placement calls and are therefore not carried in the state.
- `hasattr` probes become `Option`-ness or `Bool` capability fields.
- String operations are re-implemented by structural recursion over
  `String.data` so that every definition evaluates inside the kernel.
-/

/-! ## String helpers (structural, kernel-computable) -/

/-- Substring test: Python's `sub in s`. -/
def strContains (s sub : String) : Bool := decide (sub.data <:+: s.data)

/-- Whitespace characters stripped by Python's `str.strip()`. -/
def wsChar (c : Char) : Bool :=
  c = ' ' || c = '\t' || c = '\n' || c = '\r' || c = '\x0b' || c = '\x0c'

/-- Python's `str.strip()`. -/
def strTrim (s : String) : String :=
  String.mk (((s.data.dropWhile wsChar).reverse.dropWhile wsChar).reverse)

/-- Python's `str.lower()` (ASCII case folding, which is all that the
class-name heuristic in the source needs). -/
def strLower (s : String) : String := String.mk (s.data.map Char.toLower)

/-- Python's `str.endswith`. -/
def strEndsWith (s sfx : String) : Bool := decide (sfx.data <:+ s.data)

/-- Python truthiness test for a string: empty means falsy. -/
def strIsEmpty (s : String) : Bool := s.data.isEmpty

/-- `os.path.join` for the two-argument form used in the source. -/
def pathJoin (a b : String) : String :=
  if strIsEmpty a then b else if strEndsWith a ("/") then a ++ b else a ++ ("/") ++ b

/-! ## Data model -/

/-- The value of a module's `scaling` attribute: a per-adapter-name dict,
a single number, or some other Python value (neither dict nor number). -/
inductive Scaling where
  | dictS (entries : List (String × ℚ))
  | floatS (value : ℚ)
  | otherS
deriving DecidableEq

/-- One entry of `decoder.named_modules()`, with the attributes and
capabilities probed by `set_lora_scale`. `setScaleFails` lists the adapter
names for which the module's `set_scale` method raises (those raises are
caught and skipped in the source). -/
structure LoraModule where
  name : String
  classModule : String
  className : String
  scaling : Option Scaling
  originalScaling : Option Scaling
  hasSetScale : Bool
  setScaleFails : List String
  hasScaleLayer : Bool
  scaleLayerRaises : Bool
deriving DecidableEq

/-- The value of `decoder.active_adapters` after resolving callables:
a string, a list/tuple/set (whose elements may or may not be strings,
non-strings modelled as `none`), or any other value. -/
inductive AdaptersVal where
  | strVal (s : String)
  | listVal (items : List (Option String))
  | otherVal
deriving DecidableEq

/-- The value of `decoder.peft_config`: a dict (only its keys are read;
non-string keys modelled as `none`) or any other value. -/
inductive PeftConfigVal where
  | dictVal (keys : List (Option String))
  | otherVal
deriving DecidableEq

/-- The decoder object: its named modules plus the capabilities probed by
`set_use_lora` and the fallback tier of `set_lora_scale`.
`enableRaises` / `disableRaises` flag the (caught) exceptions of
`enable_adapter_layers` / `disable_adapter_layers`. -/
structure Decoder where
  modules : List LoraModule
  hasDisableAdapterLayers : Bool
  enableRaises : Bool
  disableRaises : Bool
  layersEnabled : Bool
  activeAdapters : Option AdaptersVal
  peftConfig : Option PeftConfigVal
deriving DecidableEq

/-- The fields of the shared handler/session context read or written by
`LoraManagerMixin`. `model` is `none` when `self.model is None`;
`base_decoder` embeds the `_base_decoder` attribute. -/
structure Handler where
  model : Option Decoder
  quantization : Option String
  lora_loaded : Bool
  use_lora : Bool
  lora_scale : ℚ
  base_decoder : Option Decoder
deriving DecidableEq

/-- Oracle for a single call's interaction with the outside world:
which filesystem paths exist, whether `peft` imports, the result of
`PeftModel.from_pretrained` (`none` = it raises), whether the
device/precision placement (`.to`/`.eval`) raises inside `load_lora`
resp. `unload_lora`, whether `named_modules()` raises inside
`set_lora_scale`, and the text `str(e)` of a raised exception. -/
structure Env where
  peftAvailable : Bool
  fsPaths : List String
  fromPretrained : Option Decoder
  loadPlacementRaises : Bool
  unloadPlacementRaises : Bool
  namedModulesRaise : Bool
  errMsg : String
deriving DecidableEq

/-- The dict returned by `get_lora_status`. -/
structure LoraStatus where
  loaded : Bool
  active : Bool
  scale : ℚ
deriving DecidableEq

/-! ## Status-string fragments (verbatim from the source) -/

def msgModelNotInit : String := "❌ Model not initialized. Please initialize service first."

def msgQuantPre : String := "❌ LoRA loading is not supported on quantized models. Current quantization: "

def msgQuantSuf : String := ". Please re-initialize the service with quantization disabled, then try loading the LoRA adapter again."

def msgProvidePath : String := "❌ Please provide a LoRA path."

def msgPathNotFoundPre : String := "❌ LoRA path not found: "

def msgInvalidAdapterPre : String := "❌ Invalid LoRA adapter: adapter_config.json not found in "

def msgPeftMissing : String := "❌ PEFT library not installed. Please install with: pip install peft"

def msgLoadFailPre : String := "❌ Failed to load LoRA: "

def msgLoadedPre : String := "✅ LoRA loaded from "

def msgNoLoraLoadedWarn : String := "⚠️ No LoRA adapter loaded."

def msgNoBackup : String := "❌ Base decoder backup not found. Cannot restore."

def msgUnloadFailPre : String := "❌ Failed to unload LoRA: "

def msgUnloaded : String := "✅ LoRA unloaded, using base model"

def msgNoLoraForEnable : String := "❌ No LoRA adapter loaded. Please load a LoRA first."

def msgEnabled : String := "✅ LoRA enabled"

def msgDisabled : String := "✅ LoRA disabled"

def msgNoLoraShort : String := "⚠️ No LoRA loaded"

def msgScaleOkPre : String := "✅ LoRA scale: "

def msgScaleDisabledSuf : String := " (LoRA disabled)"

def msgScaleSetPre : String := "⚠️ Scale set to "

def msgScaleNoModulesSuf : String := " (no modules found)"

def msgScalePartialSuf : String := " (partial)"

def loraTag : String := "lora_"

def peftTag : String := "peft"

def loraWord : String := "lora"

def quantWord : String := "quantization"

def configFileName : String := "adapter_config.json"

/-! ## Numeric helpers -/

/-- `max(0.0, min(1.0, scale))` from the source. -/
def clamp01 (q : ℚ) : ℚ := max 0 (min 1 q)

/-- Floor of a rational as an integer. -/
def qfloor (q : ℚ) : Int := Int.fdiv q.num q.den

/-- Round half to even, as Python's string formatting does. -/
def roundHalfEven (q : ℚ) : Int :=
  let f := qfloor q
  let r := q - (f : ℚ)
  if r < 1/2 then f
  else if (1 : ℚ)/2 < r then f + 1
  else if f % 2 = 0 then f else f + 1

/-- Python's `f"{x:.2f}"` on an exact rational. -/
def fmt2 (q : ℚ) : String :=
  let c := roundHalfEven (q * 100)
  let a := c.natAbs
  let fp := a % 100
  let fps := if fp < 10 then ("0") ++ toString fp else toString fp
  let s := toString (a / 100) ++ (".") ++ fps
  if c < 0 then ("-") ++ s else s

/-! ## Tier 1 of `set_lora_scale`: direct `scaling`-attribute mutation -/

/-- Lookup in a Python dict modelled as an association list. -/
def dictLookup (k : String) : List (String × ℚ) → Option ℚ
  | [] => none
  | p :: rest => if p.1 = k then some p.2 else dictLookup k rest

/-- `d[k] = v` on a dict modelled as an association list (keys are fixed,
only the value stored under `k` changes). -/
def dictSetVal (k : String) (v : ℚ) (d : List (String × ℚ)) : List (String × ℚ) :=
  d.map (fun p => if p.1 = k then (p.1, v) else p)

/-- The loop `for adapter_name in scaling: scaling[k] = original[k] * sc`,
iterating over the key list `ks` of the current dict `cur` with saved
original `od`. Returns the dict after the processed assignments and
whether a `KeyError` was raised (a key of `cur` missing from `od`);
on a raise the earlier assignments remain applied. -/
def updDictGo (sc : ℚ) (od : List (String × ℚ)) (cur : List (String × ℚ)) :
    List String → List (String × ℚ) × Bool
  | [] => (cur, false)
  | k :: ks =>
    match dictLookup k od with
    | none => (cur, true)
    | some ov => updDictGo sc od (dictSetVal k (ov * sc) cur) ks

/-- Body of the tier-1 loop for one module that passed the guard
`"lora_" in name and hasattr(module, "scaling")`. Returns the updated
module, whether `modified_count` was incremented, and whether an
exception was raised (`KeyError` on a stale original dict, or `TypeError`
when the saved original's type no longer matches the scaling's type). -/
def applyT1 (sc : ℚ) (m : LoraModule) : LoraModule × Bool × Bool :=
  match m.scaling with
  | none => (m, false, false)
  | some Scaling.otherS => (m, false, false)
  | some (Scaling.dictS d) =>
    let orig := m.originalScaling.getD (Scaling.dictS d)
    let m1 := { m with originalScaling := some orig }
    match orig with
    | Scaling.dictS od =>
      let res := updDictGo sc od d (d.map (fun p => p.1))
      ({ m1 with scaling := some (Scaling.dictS res.1) }, !res.2, res.2)
    | _ =>
      if d.isEmpty then (m1, true, false) else (m1, false, true)
  | some (Scaling.floatS v) =>
    let orig := m.originalScaling.getD (Scaling.floatS v)
    let m1 := { m with originalScaling := some orig }
    match orig with
    | Scaling.floatS ov => ({ m1 with scaling := some (Scaling.floatS (ov * sc)) }, true, false)
    | _ => (m1, false, true)

/-- The tier-1 `for name, module in named_modules()` loop: returns the
module list after the loop, the value of `modified_count`, and whether an
exception escaped the loop (in which case later modules are untouched). -/
def tier1 (sc : ℚ) : List LoraModule → List LoraModule × Nat × Bool
  | [] => ([], 0, false)
  | m :: ms =>
    if strContains m.name loraTag && m.scaling.isSome then
      let r := applyT1 sc m
      if r.2.2 then (r.1 :: ms, 0, true)
      else
        let rest := tier1 sc ms
        (r.1 :: rest.1, (if r.2.1 then 1 else 0) + rest.2.1, rest.2.2)
    else
      let rest := tier1 sc ms
      (m :: rest.1, rest.2.1, rest.2.2)

/-! ## Tier 2 of `set_lora_scale`: capability-method fallback -/

/-- The `active_adapters` discovery of the fallback tier. -/
def computeActiveAdapters (dec : Decoder) : List String :=
  let fromAttr :=
    match dec.activeAdapters with
    | some (AdaptersVal.strVal s) => [s]
    | some (AdaptersVal.listVal items) => items.filterMap (fun x => x)
    | _ => []
  if !fromAttr.isEmpty then fromAttr
  else
    match dec.peftConfig with
    | some (PeftConfigVal.dictVal keys) => keys.filterMap (fun x => x)
    | _ => []

/-- Whether the fallback tier sets `module_modified` for one module. -/
def fallbackModified (active : List String) (m : LoraModule) : Bool :=
  let isProbablyLora :=
    (strContains (strLower m.classModule) peftTag && strContains (strLower m.classModule) loraWord)
      || strContains (strLower m.className) loraWord
  if !isProbablyLora then false
  else if m.hasSetScale && !active.isEmpty then
    active.any (fun a => !(m.setScaleFails.contains a))
  else if m.hasScaleLayer then !m.scaleLayerRaises
  else false

/-- `modified_count` contributed by the fallback tier. -/
def fallbackCount (active : List String) (ms : List LoraModule) : Nat :=
  (ms.filter (fallbackModified active)).length

/-! ## The five operations -/

/-- `LoraManagerMixin.load_lora`. -/
def load_lora (env : Env) (st : Handler) (lora_path : String) : String × Handler :=
  match st.model with
  | none => (msgModelNotInit, st)
  | some dec =>
    match st.quantization with
    | some q => (msgQuantPre ++ q ++ msgQuantSuf, st)
    | none =>
      if strIsEmpty (strTrim lora_path) then (msgProvidePath, st)
      else
        let p := strTrim lora_path
        if !env.fsPaths.contains p then (msgPathNotFoundPre ++ p, st)
        else if !env.fsPaths.contains (pathJoin p configFileName) then
          (msgInvalidAdapterPre ++ p, st)
        else if !env.peftAvailable then (msgPeftMissing, st)
        else
          let st1 :=
            match st.base_decoder with
            | none => { st with base_decoder := some dec }
            | some b => { st with model := some b }
          match env.fromPretrained with
          | none => (msgLoadFailPre ++ env.errMsg, st1)
          | some newDec =>
            if env.loadPlacementRaises then
              (msgLoadFailPre ++ env.errMsg, { st1 with model := some newDec })
            else
              (msgLoadedPre ++ p,
               { st1 with model := some newDec, lora_loaded := true, use_lora := true })

/-- `LoraManagerMixin.unload_lora`. When the restore's placement raises,
the decoder has already been re-assigned from the snapshot but the flags
and the scale are left untouched, exactly as in the source. -/
def unload_lora (env : Env) (st : Handler) : String × Handler :=
  if !st.lora_loaded then (msgNoLoraLoadedWarn, st)
  else
    match st.base_decoder with
    | none => (msgNoBackup, st)
    | some base =>
      match st.model with
      | none => (msgUnloadFailPre ++ env.errMsg, st)
      | some _ =>
        if env.unloadPlacementRaises then
          (msgUnloadFailPre ++ env.errMsg, { st with model := some base })
        else
          (msgUnloaded,
           { st with model := some base, lora_loaded := false, use_lora := false,
                     lora_scale := 1 })

/-- `LoraManagerMixin.set_lora_scale`. -/
def set_lora_scale (env : Env) (st : Handler) (scale : ℚ) : String × Handler :=
  if !st.lora_loaded then (msgNoLoraShort, st)
  else
    let s := clamp01 scale
    let st1 := { st with lora_scale := s }
    let t := fmt2 s
    if !st1.use_lora then (msgScaleOkPre ++ t ++ msgScaleDisabledSuf, st1)
    else
      match st1.model with
      | none => (msgScaleSetPre ++ t ++ msgScalePartialSuf, st1)
      | some dec =>
        if env.namedModulesRaise then (msgScaleSetPre ++ t ++ msgScalePartialSuf, st1)
        else
          let r := tier1 s dec.modules
          let st2 := { st1 with model := some { dec with modules := r.1 } }
          if r.2.2 then (msgScaleSetPre ++ t ++ msgScalePartialSuf, st2)
          else
            let cnt :=
              if r.2.1 = 0 then fallbackCount (computeActiveAdapters dec) r.1 else r.2.1
            if cnt > 0 then (msgScaleOkPre ++ t, st2)
            else (msgScaleSetPre ++ t ++ msgScaleNoModulesSuf, st2)

/-- `LoraManagerMixin.set_use_lora`. Returns `none` for the one uncaught
exception of the mixin: with `lora_loaded` true but `self.model` gone,
the `hasattr(self.model.decoder, ...)` probe raises outside any `try`. -/
def set_use_lora (env : Env) (st : Handler) (u : Bool) : Option (String × Handler) :=
  if u && !st.lora_loaded then some (msgNoLoraForEnable, st)
  else
    let st1 := { st with use_lora := u }
    let okMsg := if u then msgEnabled else msgDisabled
    if !st1.lora_loaded then some (okMsg, st1)
    else
      match st1.model with
      | none => none
      | some dec =>
        if !dec.hasDisableAdapterLayers then some (okMsg, st1)
        else if u then
          if dec.enableRaises then some (okMsg, st1)
          else
            let st2 := { st1 with model := some { dec with layersEnabled := true } }
            if st2.lora_scale = 1 then some (okMsg, st2)
            else some (okMsg, (set_lora_scale env st2 st2.lora_scale).2)
        else
          if dec.disableRaises then some (okMsg, st1)
          else some (okMsg, { st1 with model := some { dec with layersEnabled := false } })

/-- `LoraManagerMixin.get_lora_status`. -/
def get_lora_status (st : Handler) : LoraStatus :=
  { loaded := st.lora_loaded, active := st.use_lora, scale := st.lora_scale }

/-! ## Operation sequences -/

/-- One public mutating operation of the mixin. -/
inductive Op where
  | loadOp (path : String)
  | unloadOp
  | setEnabledOp (u : Bool)
  | setScaleOp (s : ℚ)

/-- Run one operation; `none` models an uncaught exception. -/
def runOp (env : Env) (st : Handler) : Op → Option (String × Handler)
  | Op.loadOp p => some (load_lora env st p)
  | Op.unloadOp => some (unload_lora env st)
  | Op.setEnabledOp u => set_use_lora env st u
  | Op.setScaleOp s => some (set_lora_scale env st s)

/-- Run a sequence of operations, each with its own oracle. -/
def runOps : Handler → List (Env × Op) → Option Handler
  | st, [] => some st
  | st, eo :: rest =>
    match runOp eo.1 st eo.2 with
    | none => none
    | some pr => runOps pr.2 rest

/-! ## Derived notions used in theorem statements -/

/-- Pointwise rescaling of a captured original `scaling` value: what the
source's tier-1 loop stores when it applies scale `c` relative to the
original. -/
def mulScaling (c : ℚ) : Scaling → Scaling
  | Scaling.dictS d => Scaling.dictS (d.map (fun p => (p.1, p.2 * c)))
  | Scaling.floatS v => Scaling.floatS (v * c)
  | Scaling.otherS => Scaling.otherS

/-- The effect of one tier-1 iteration on one module (identity when the
module fails the `"lora_" in name and hasattr(module, "scaling")` guard). -/
def t1step (sc : ℚ) (m : LoraModule) : LoraModule :=
  if strContains m.name loraTag && m.scaling.isSome then (applyT1 sc m).1 else m

/-! ## Concrete fixtures for witnesses and counterexamples -/

/-- A decoder with no modules and no optional capabilities. -/
def decEmpty : Decoder :=
  { modules := [], hasDisableAdapterLayers := false, enableRaises := false,
    disableRaises := false, layersEnabled := false, activeAdapters := none,
    peftConfig := none }

/-- An oracle in which nothing raises but the filesystem is empty and the
adaptation library returns an empty decoder. -/
def envQuiet : Env :=
  { peftAvailable := true, fsPaths := [], fromPretrained := some decEmpty,
    loadPlacementRaises := false, unloadPlacementRaises := false,
    namedModulesRaise := false, errMsg := "boom" }

def demoPath : String := "adapters/rock"

def demoConfig : String := "adapters/rock/adapter_config.json"

/-- Oracle under which `load_lora demoPath` succeeds. -/
def envLoadOk : Env := { envQuiet with fsPaths := [demoPath, demoConfig] }

/-- Oracle whose decoder-restore placement raises inside `unload_lora`. -/
def envUnloadBoom : Env := { envQuiet with unloadPlacementRaises := true }

/-- Oracle whose filesystem has the adapter directory but not its config. -/
def envNoConfig : Env := { envQuiet with fsPaths := [demoPath] }

def quantName : String := "int8_weight_only"

/-- A freshly initialized session: model present, nothing loaded. -/
def stInit : Handler :=
  { model := some decEmpty, quantization := none, lora_loaded := false,
    use_lora := false, lora_scale := 1, base_decoder := none }

/-- The session after a successful `load_lora demoPath` from `stInit`
under `envLoadOk`. -/
def stLoaded : Handler :=
  { model := some decEmpty, quantization := none, lora_loaded := true,
    use_lora := true, lora_scale := 1, base_decoder := some decEmpty }

/-- `stLoaded` after `set_use_lora false`. -/
def stDisabled : Handler := { stLoaded with use_lora := false }

/-- `stInit` with a quantized model. -/
def stQuant : Handler := { stInit with quantization := some quantName }

def adapterName : String := "default"

/-- A module whose `scaling` attribute is a single number. -/
def mFloat : LoraModule :=
  { name := "model.layers.0.self_attn.q_proj.lora_A",
    classModule := "peft.tuners.lora.layer", className := "Linear",
    scaling := some (Scaling.floatS 2), originalScaling := none,
    hasSetScale := false, setScaleFails := [], hasScaleLayer := false,
    scaleLayerRaises := false }

/-- A module whose `scaling` attribute is an adapter-name-keyed dict. -/
def mDict : LoraModule :=
  { name := "model.layers.0.self_attn.v_proj.lora_B",
    classModule := "peft.tuners.lora.layer", className := "Linear",
    scaling := some (Scaling.dictS [(adapterName, 4)]), originalScaling := none,
    hasSetScale := false, setScaleFails := [], hasScaleLayer := false,
    scaleLayerRaises := false }

/-- A decoder carrying the two modules above. -/
def decMods : Decoder := { decEmpty with modules := [mFloat, mDict] }

/-- A loaded, enabled session whose decoder carries the two modules. -/
def stMods : Handler :=
  { model := some decMods, quantization := none, lora_loaded := true,
    use_lora := true, lora_scale := 1, base_decoder := some decEmpty }

/-- `mFloat` after a first `set_lora_scale (1/2)` pass. -/
def mFloatA : LoraModule :=
  { mFloat with originalScaling := some (Scaling.floatS 2),
                scaling := some (Scaling.floatS (2 * (1/2))) }

/-- `mDict` after a first `set_lora_scale (1/2)` pass. -/
def mDictA : LoraModule :=
  { mDict with originalScaling := some (Scaling.dictS [(adapterName, 4)]),
               scaling := some (Scaling.dictS
                 ([(adapterName, 4)].map (fun p => (p.1, p.2 * (1/2))))) }

/-! ## Helper lemmas -/

lemma clamp01_nonneg (q : ℚ) : 0 ≤ clamp01 q := le_max_left 0 _

lemma clamp01_le_one (q : ℚ) : clamp01 q ≤ 1 := max_le (by norm_num) (min_le_left 1 q)

lemma clamp01_of_mem (q : ℚ) (h0 : 0 ≤ q) (h1 : q ≤ 1) : clamp01 q = q := by
  unfold clamp01
  rw [min_eq_right h1, max_eq_right h0]

lemma strContains_append_left (a b sub : String) (h : strContains a sub = true) :
    strContains (a ++ b) sub = true := by
  unfold strContains at h ⊢
  simp only [decide_eq_true_eq] at h ⊢
  rw [String.data_append]
  exact h.trans (List.prefix_append a.data b.data).isInfix

lemma set_lora_scale_not_loaded (env : Env) (st : Handler) (q : ℚ)
    (h : st.lora_loaded = false) : set_lora_scale env st q = (msgNoLoraShort, st) := by
  unfold set_lora_scale
  rw [h]
  rfl

lemma set_lora_scale_stores_clamp (env : Env) (st : Handler) (q : ℚ)
    (h : st.lora_loaded = true) :
    (set_lora_scale env st q).2.lora_scale = clamp01 q := by
  unfold set_lora_scale
  rw [h]
  repeat' (first | split | dsimp only)
  all_goals first | rfl | simp_all

lemma set_lora_scale_frame (env : Env) (st : Handler) (q : ℚ) :
    (set_lora_scale env st q).2.lora_loaded = st.lora_loaded ∧
    (set_lora_scale env st q).2.use_lora = st.use_lora ∧
    (set_lora_scale env st q).2.base_decoder = st.base_decoder ∧
    (set_lora_scale env st q).2.quantization = st.quantization := by
  unfold set_lora_scale
  repeat' (first | split | dsimp only)
  all_goals exact ⟨rfl, rfl, rfl, rfl⟩

lemma set_lora_scale_scale_cases (env : Env) (st : Handler) (q : ℚ) :
    (set_lora_scale env st q).2.lora_scale = st.lora_scale ∨
    (set_lora_scale env st q).2.lora_scale = clamp01 q := by
  unfold set_lora_scale
  repeat' (first | split | dsimp only)
  all_goals first
    | exact Or.inl rfl
    | exact Or.inr rfl

lemma load_lora_scale_eq (env : Env) (st : Handler) (p : String) :
    (load_lora env st p).2.lora_scale = st.lora_scale := by
  unfold load_lora
  repeat' (first | split | dsimp only)

lemma load_lora_flags_cases (env : Env) (st : Handler) (p : String) :
    ((load_lora env st p).2.lora_loaded = st.lora_loaded ∧
     (load_lora env st p).2.use_lora = st.use_lora) ∨
    ((load_lora env st p).2.lora_loaded = true ∧
     (load_lora env st p).2.use_lora = true) := by
  unfold load_lora
  repeat' (first | split | dsimp only)
  all_goals first
    | exact Or.inl ⟨rfl, rfl⟩
    | exact Or.inr ⟨rfl, rfl⟩

lemma unload_lora_cases (env : Env) (st : Handler) :
    ((unload_lora env st).2.lora_loaded = st.lora_loaded ∧
     (unload_lora env st).2.use_lora = st.use_lora ∧
     (unload_lora env st).2.lora_scale = st.lora_scale) ∨
    ((unload_lora env st).2.lora_loaded = false ∧
     (unload_lora env st).2.use_lora = false ∧
     (unload_lora env st).2.lora_scale = 1) := by
  unfold unload_lora
  repeat' (first | split | dsimp only)
  all_goals first
    | exact Or.inl ⟨rfl, rfl, rfl⟩
    | exact Or.inr ⟨rfl, rfl, rfl⟩

lemma set_use_lora_state (env : Env) (st : Handler) (u : Bool) (pr : String × Handler)
    (h : set_use_lora env st u = some pr) :
    pr.2 = st ∨
    (pr.2.lora_loaded = st.lora_loaded ∧ pr.2.use_lora = u ∧
     (u = true → st.lora_loaded = true) ∧
     (pr.2.lora_scale = st.lora_scale ∨ pr.2.lora_scale = clamp01 st.lora_scale)) := by
  unfold set_use_lora at h
  split at h
  · simp only [Option.some.injEq] at h
    exact Or.inl (by rw [← h])
  next hg =>
    have hul : u = true → st.lora_loaded = true := by
      intro hu
      cases hlv : st.lora_loaded
      · exact absurd (by rw [hu, hlv]; rfl) hg
      · rfl
    dsimp only at h
    right
    split at h
    · simp only [Option.some.injEq] at h
      rw [← h]
      exact ⟨rfl, rfl, hul, Or.inl rfl⟩
    · split at h
      · exact Option.noConfusion h
      · split at h
        · simp only [Option.some.injEq] at h
          rw [← h]
          exact ⟨rfl, rfl, hul, Or.inl rfl⟩
        · split at h
          · split at h
            · simp only [Option.some.injEq] at h
              rw [← h]
              exact ⟨rfl, rfl, hul, Or.inl rfl⟩
            · split at h
              · simp only [Option.some.injEq] at h
                rw [← h]
                exact ⟨rfl, rfl, hul, Or.inl rfl⟩
              · simp only [Option.some.injEq] at h
                rw [← h]
                exact ⟨(set_lora_scale_frame _ _ _).1, (set_lora_scale_frame _ _ _).2.1,
                  hul, set_lora_scale_scale_cases _ _ _⟩
          · split at h
            · simp only [Option.some.injEq] at h
              rw [← h]
              exact ⟨rfl, rfl, hul, Or.inl rfl⟩
            · simp only [Option.some.injEq] at h
              rw [← h]
              exact ⟨rfl, rfl, hul, Or.inl rfl⟩

lemma runOp_enabled_inv (env : Env) (st : Handler) (op : Op) (pr : String × Handler)
    (h : runOp env st op = some pr)
    (hInv : st.use_lora = true → st.lora_loaded = true) :
    pr.2.use_lora = true → pr.2.lora_loaded = true := by
  cases op with
  | loadOp p =>
    simp only [runOp, Option.some.injEq] at h
    rw [← h]
    rcases load_lora_flags_cases env st p with ⟨h1, h2⟩ | ⟨h1, h2⟩
    · rw [h1, h2]; exact hInv
    · rw [h1, h2]; exact fun _ => rfl
  | unloadOp =>
    simp only [runOp, Option.some.injEq] at h
    rw [← h]
    rcases unload_lora_cases env st with ⟨h1, h2, _⟩ | ⟨h1, h2, _⟩
    · rw [h1, h2]; exact hInv
    · rw [h1, h2]; exact fun hx => hx
  | setScaleOp q =>
    simp only [runOp, Option.some.injEq] at h
    rw [← h]
    rw [(set_lora_scale_frame env st q).1, (set_lora_scale_frame env st q).2.1]
    exact hInv
  | setEnabledOp u =>
    simp only [runOp] at h
    rcases set_use_lora_state env st u pr h with hs | ⟨h1, h2, h3, _⟩
    · rw [hs]; exact hInv
    · intro hu
      rw [h2] at hu
      rw [h1]
      exact h3 hu

lemma runOp_scale_range (env : Env) (st : Handler) (op : Op) (pr : String × Handler)
    (h : runOp env st op = some pr)
    (hr : 0 ≤ st.lora_scale ∧ st.lora_scale ≤ 1) :
    0 ≤ pr.2.lora_scale ∧ pr.2.lora_scale ≤ 1 := by
  cases op with
  | loadOp p =>
    simp only [runOp, Option.some.injEq] at h
    rw [← h, load_lora_scale_eq]
    exact hr
  | unloadOp =>
    simp only [runOp, Option.some.injEq] at h
    rw [← h]
    rcases unload_lora_cases env st with ⟨_, _, h3⟩ | ⟨_, _, h3⟩
    · rw [h3]; exact hr
    · rw [h3]; norm_num
  | setScaleOp q =>
    simp only [runOp, Option.some.injEq] at h
    rw [← h]
    rcases set_lora_scale_scale_cases env st q with hc | hc
    · rw [hc]; exact hr
    · rw [hc]; exact ⟨clamp01_nonneg q, clamp01_le_one q⟩
  | setEnabledOp u =>
    simp only [runOp] at h
    rcases set_use_lora_state env st u pr h with hs | ⟨_, _, _, hc | hc⟩
    · rw [hs]; exact hr
    · rw [hc]; exact hr
    · rw [hc]; exact ⟨clamp01_nonneg _, clamp01_le_one _⟩

/-- C1: starting from any state in which `use_lora → lora_loaded`
(`adapterEnabled ⇒ adapterLoaded`), the invariant still holds after any
sequence of `load_lora` / `unload_lora` / `set_use_lora` /
`set_lora_scale` calls returns: a successful load sets both flags, a
successful unload clears both, `set_use_lora true` refuses when nothing
is loaded, and no operation sets `use_lora` with `lora_loaded` false.
Since every prefix of a sequence is a sequence, the invariant holds after
each intermediate operation as well. -/
theorem c1_enabled_implies_loaded (l : List (Env × Op)) (st st' : Handler)
    (hInv : st.use_lora = true → st.lora_loaded = true)
    (hRun : runOps st l = some st') :
    st'.use_lora = true → st'.lora_loaded = true := by
  induction l generalizing st with
  | nil =>
    simp only [runOps, Option.some.injEq] at hRun
    rw [← hRun]
    exact hInv
  | cons eo rest ih =>
    simp only [runOps] at hRun
    cases hop : runOp eo.1 st eo.2 with
    | none =>
      rw [hop] at hRun
      exact Option.noConfusion hRun
    | some pr =>
      rw [hop] at hRun
      dsimp only at hRun
      exact ih pr.2 (runOp_enabled_inv eo.1 st eo.2 pr hop hInv) hRun

/-- C1 witness: a concrete run (disabling the adapter on a loaded state)
on which the theorem's hypotheses hold and its conclusion evaluates. -/
theorem c1_enabled_implies_loaded_witness :
    ((stLoaded.use_lora = true → stLoaded.lora_loaded = true) ∧
     runOps stLoaded [(envQuiet, Op.setEnabledOp false)] = some stDisabled) ∧
    (stDisabled.use_lora = true → stDisabled.lora_loaded = true) :=
  ⟨⟨by decide, by decide⟩,
   c1_enabled_implies_loaded [(envQuiet, Op.setEnabledOp false)] stLoaded stDisabled
     (by decide) (by decide)⟩

/-- C8: starting from any state whose `lora_scale` lies in `[0, 1]`, the
scale still lies in `[0, 1]` after any sequence of operations returns:
`set_lora_scale` stores the clamped value, `unload_lora` resets the scale
to `1.0`, and `load_lora` / `set_use_lora` never store a value outside
the range (the nested re-application inside `set_use_lora true` stores a
clamped value as well). -/
theorem c8_scale_stays_in_range (l : List (Env × Op)) (st st' : Handler)
    (hr : 0 ≤ st.lora_scale ∧ st.lora_scale ≤ 1)
    (hRun : runOps st l = some st') :
    0 ≤ st'.lora_scale ∧ st'.lora_scale ≤ 1 := by
  induction l generalizing st with
  | nil =>
    simp only [runOps, Option.some.injEq] at hRun
    rw [← hRun]
    exact hr
  | cons eo rest ih =>
    simp only [runOps] at hRun
    cases hop : runOp eo.1 st eo.2 with
    | none =>
      rw [hop] at hRun
      exact Option.noConfusion hRun
    | some pr =>
      rw [hop] at hRun
      dsimp only at hRun
      exact ih pr.2 (runOp_scale_range eo.1 st eo.2 pr hop hr) hRun

/-- C8 witness: a concrete run (a `set_lora_scale 2` call, clamped to 1)
on which the theorem's hypotheses hold and its conclusion evaluates. -/
theorem c8_scale_stays_in_range_witness :
    ((0 ≤ stLoaded.lora_scale ∧ stLoaded.lora_scale ≤ 1) ∧
     runOps stLoaded [(envQuiet, Op.setScaleOp 2)] = some stLoaded) ∧
    (0 ≤ stLoaded.lora_scale ∧ stLoaded.lora_scale ≤ 1) :=
  ⟨⟨by decide, by decide⟩,
   c8_scale_stays_in_range [(envQuiet, Op.setScaleOp 2)] stLoaded stLoaded
     (by decide) (by decide)⟩

/-- C2: for every input `x` and every library state (module contents,
exception behaviour, enabled/disabled), a `set_lora_scale x` call on a
loaded session stores exactly `clamp01 x` in `lora_scale` — whether the
module mutation succeeds, raises, or finds no modules. (On a session with
nothing loaded the call is refused before the clamp, so the claim is
about sessions past that guard.) -/
theorem c2_setscale_stores_clamp (env : Env) (st : Handler) (x : ℚ)
    (h : st.lora_loaded = true) :
    (set_lora_scale env st x).2.lora_scale = clamp01 x :=
  set_lora_scale_stores_clamp env st x h

/-- C2 witness: storing `2` on a loaded session clamps it to `1`. -/
theorem c2_setscale_stores_clamp_witness :
    stLoaded.lora_loaded = true ∧
    (set_lora_scale envQuiet stLoaded 2).2.lora_scale = clamp01 2 :=
  ⟨by decide, c2_setscale_stores_clamp envQuiet stLoaded 2 (by decide)⟩

/-- C3: with an initialized model and non-null quantization, `load_lora`
fails with the quantization-specific message (which contains the word
"quantization") and returns the state entirely unchanged, for every path
and every oracle. -/
theorem c3_quantized_load_refused (env : Env) (st : Handler) (p : String)
    (d : Decoder) (q : String)
    (hm : st.model = some d) (hq : st.quantization = some q) :
    load_lora env st p = (msgQuantPre ++ q ++ msgQuantSuf, st) ∧
    strContains (load_lora env st p).1 quantWord = true := by
  have he : load_lora env st p = (msgQuantPre ++ q ++ msgQuantSuf, st) := by
    unfold load_lora
    rw [hm, hq]
  refine ⟨he, ?_⟩
  rw [he]
  exact strContains_append_left _ _ _ (strContains_append_left _ _ _ (by decide))

/-- C3 witness: the quantized fixture session refuses a load. -/
theorem c3_quantized_load_refused_witness :
    (stQuant.model = some decEmpty ∧ stQuant.quantization = some quantName) ∧
    (load_lora envLoadOk stQuant demoPath = (msgQuantPre ++ quantName ++ msgQuantSuf, stQuant) ∧
     strContains (load_lora envLoadOk stQuant demoPath).1 quantWord = true) :=
  ⟨⟨by decide, by decide⟩,
   c3_quantized_load_refused envLoadOk stQuant demoPath decEmpty quantName rfl rfl⟩

/-- C6: whenever nothing is loaded, `set_use_lora true` returns the
failure string and leaves the whole state (in particular `use_lora`)
unchanged. -/
theorem c6_enable_without_load_fails (env : Env) (st : Handler)
    (h : st.lora_loaded = false) :
    set_use_lora env st true = some (msgNoLoraForEnable, st) := by
  unfold set_use_lora
  rw [h]
  rfl

/-- C6 witness: enabling on the freshly initialized session fails. -/
theorem c6_enable_without_load_fails_witness :
    stInit.lora_loaded = false ∧
    set_use_lora envQuiet stInit true = some (msgNoLoraForEnable, stInit) :=
  ⟨by decide, c6_enable_without_load_fails envQuiet stInit (by decide)⟩

/-- C10: `set_use_lora false` succeeds from every state (the sole
well-formedness proviso being that a loaded session still has its model,
which the mixin itself guarantees): it stores `use_lora := false`,
returns the success string, and when nothing is loaded it skips the
decoder capability probe entirely, so the state changes only in
`use_lora`. -/
theorem c10_disable_always_succeeds (env : Env) (st : Handler)
    (hwf : st.lora_loaded = true → st.model.isSome = true) :
    ∃ st', set_use_lora env st false = some (msgDisabled, st') ∧
      st'.use_lora = false ∧
      (st.lora_loaded = false → st' = { st with use_lora := false }) := by
  unfold set_use_lora
  simp only [Bool.false_and, Bool.false_eq_true, if_false]
  try dsimp only
  cases hl : st.lora_loaded with
  | false =>
    exact ⟨_, rfl, rfl, fun _ => rfl⟩
  | true =>
    obtain ⟨dec, hdec⟩ := Option.isSome_iff_exists.mp (hwf hl)
    rw [hdec]
    dsimp only
    cases hcap : dec.hasDisableAdapterLayers with
    | false =>
      exact ⟨_, rfl, rfl, fun hf => Bool.noConfusion hf⟩
    | true =>
      cases hdr : dec.disableRaises with
      | true =>
        exact ⟨_, rfl, rfl, fun hf => Bool.noConfusion hf⟩
      | false =>
        exact ⟨_, rfl, rfl, fun hf => Bool.noConfusion hf⟩

/-- C10 witness: disabling on the freshly initialized session. -/
theorem c10_disable_always_succeeds_witness :
    (stInit.lora_loaded = true → stInit.model.isSome = true) ∧
    (∃ st', set_use_lora envQuiet stInit false = some (msgDisabled, st') ∧
      st'.use_lora = false ∧
      (stInit.lora_loaded = false → st' = { stInit with use_lora := false })) :=
  ⟨by decide, c10_disable_always_succeeds envQuiet stInit (by decide)⟩

/-- C9: `load_lora` never touches the stored `lora_scale`: after storing
a scale with `set_lora_scale s` on a loaded session, any subsequent
`load_lora` — including a successful re-load, which builds a fresh
adapter whose modules keep their default scaling — leaves `get_lora_status`
reporting the stored `clamp01 s`. -/
theorem c9_load_preserves_scale (env1 env2 : Env) (st : Handler) (s : ℚ) (p : String)
    (h : st.lora_loaded = true) :
    (get_lora_status (load_lora env2 (set_lora_scale env1 st s).2 p).2).scale = clamp01 s := by
  unfold get_lora_status
  dsimp only
  rw [load_lora_scale_eq, set_lora_scale_stores_clamp env1 st s h]

/-- C9 witness: store scale 0 on the loaded fixture, re-load successfully,
and observe the reported scale still 0. -/
theorem c9_load_preserves_scale_witness :
    stLoaded.lora_loaded = true ∧
    (get_lora_status
      (load_lora envLoadOk (set_lora_scale envQuiet stLoaded 0).2 demoPath).2).scale = clamp01 0 :=
  ⟨by decide, c9_load_preserves_scale envQuiet envLoadOk stLoaded 0 demoPath (by decide)⟩

/-- C7: `load_lora` checks its five preconditions in order — model
initialized, quantization null, trimmed path non-empty, path existing,
config file present — short-circuiting with the branch's message and no
state mutation; each clause is universally quantified over everything
only later checks would inspect, and the missing-config message names
`adapter_config.json`. -/
theorem c7_load_precondition_order (env : Env) (st : Handler) (p : String) :
    (st.model = none → load_lora env st p = (msgModelNotInit, st)) ∧
    (∀ d q, st.model = some d → st.quantization = some q →
      load_lora env st p = (msgQuantPre ++ q ++ msgQuantSuf, st)) ∧
    (∀ d, st.model = some d → st.quantization = none →
      strIsEmpty (strTrim p) = true → load_lora env st p = (msgProvidePath, st)) ∧
    (∀ d, st.model = some d → st.quantization = none →
      strIsEmpty (strTrim p) = false → env.fsPaths.contains (strTrim p) = false →
      load_lora env st p = (msgPathNotFoundPre ++ strTrim p, st)) ∧
    (∀ d, st.model = some d → st.quantization = none →
      strIsEmpty (strTrim p) = false → env.fsPaths.contains (strTrim p) = true →
      env.fsPaths.contains (pathJoin (strTrim p) configFileName) = false →
      load_lora env st p = (msgInvalidAdapterPre ++ strTrim p, st) ∧
      strContains (msgInvalidAdapterPre ++ strTrim p) configFileName = true) := by
  refine ⟨?_, ?_, ?_, ?_, ?_⟩
  · intro hm
    unfold load_lora
    rw [hm]
  · intro d q hm hq
    unfold load_lora
    rw [hm, hq]
  · intro d hm hq hp
    unfold load_lora
    rw [hm, hq]
    dsimp only
    rw [hp]
    rfl
  · intro d hm hq hp hc
    unfold load_lora
    rw [hm, hq]
    dsimp only
    rw [hp, hc]
    rfl
  · intro d hm hq hp hc hcfg
    refine ⟨?_, ?_⟩
    · unfold load_lora
      rw [hm, hq]
      dsimp only
      rw [hp, hc, hcfg]
      rfl
    · exact strContains_append_left _ _ _ (by decide)

/-- C7 witness: the missing-config clause on the fixture whose directory
exists but has no `adapter_config.json`. -/
theorem c7_load_precondition_order_witness :
    (stInit.model = some decEmpty ∧ stInit.quantization = none ∧
     strIsEmpty (strTrim demoPath) = false ∧
     envNoConfig.fsPaths.contains (strTrim demoPath) = true ∧
     envNoConfig.fsPaths.contains (pathJoin (strTrim demoPath) configFileName) = false) ∧
    (load_lora envNoConfig stInit demoPath = (msgInvalidAdapterPre ++ strTrim demoPath, stInit) ∧
     strContains (msgInvalidAdapterPre ++ strTrim demoPath) configFileName = true) :=
  ⟨⟨rfl, rfl, by decide, by decide, by decide⟩,
   (c7_load_precondition_order envNoConfig stInit demoPath).2.2.2.2 decEmpty rfl rfl
     (by decide) (by decide) (by decide)⟩

/-- C4 counterexample: from the freshly initialized session a load
succeeds (reaching `stLoaded`), and then an `unload_lora` call whose
decoder-restore placement raises returns a failure string while
`get_lora_status` still reports `loaded := true` — refuting, at this
reachable state, the claim that after *any* `unload` call the status is
`{loaded := false, active := false, scale := 1}`. -/
theorem c4_unload_status_counterexample :
    runOps stInit [(envLoadOk, Op.loadOp demoPath)] = some stLoaded ∧
    get_lora_status (unload_lora envUnloadBoom stLoaded).2 ≠
      { loaded := false, active := false, scale := 1 } :=
  ⟨by decide, by decide⟩

/-- C4 (amended): after any `unload_lora` call whose library interaction
does not raise, from any state satisfying the mixin's reachable-state
invariants (an unloaded state has `use_lora = false` and scale 1; a
loaded state still has its model and its snapshot), `get_lora_status`
yields `{loaded := false, active := false, scale := 1}`. -/
theorem c4_unload_status_amended (env : Env) (st : Handler)
    (hUnl : st.lora_loaded = false → st.use_lora = false ∧ st.lora_scale = 1)
    (hMod : st.lora_loaded = true → st.model.isSome = true)
    (hSnap : st.lora_loaded = true → st.base_decoder.isSome = true)
    (hNR : env.unloadPlacementRaises = false) :
    get_lora_status (unload_lora env st).2 =
      { loaded := false, active := false, scale := 1 } := by
  unfold unload_lora
  cases hl : st.lora_loaded with
  | false =>
    obtain ⟨h1, h2⟩ := hUnl hl
    simp [get_lora_status, hl, h1, h2]
  | true =>
    obtain ⟨dec, hdec⟩ := Option.isSome_iff_exists.mp (hMod hl)
    obtain ⟨b, hb⟩ := Option.isSome_iff_exists.mp (hSnap hl)
    rw [hb, hdec, hNR]
    rfl

/-- C4 (amended) witness: a clean unload of the loaded fixture. -/
theorem c4_unload_status_amended_witness :
    ((stLoaded.lora_loaded = false → stLoaded.use_lora = false ∧ stLoaded.lora_scale = 1) ∧
     (stLoaded.lora_loaded = true → stLoaded.model.isSome = true) ∧
     (stLoaded.lora_loaded = true → stLoaded.base_decoder.isSome = true) ∧
     envQuiet.unloadPlacementRaises = false) ∧
    get_lora_status (unload_lora envQuiet stLoaded).2 =
      { loaded := false, active := false, scale := 1 } :=
  ⟨⟨by decide, by decide, by decide, by decide⟩,
   c4_unload_status_amended envQuiet stLoaded (by decide) (by decide) (by decide) (by decide)⟩

/-! ## Tier-1 lemmas for the non-compounding property (C5) -/

lemma dictLookup_isSome_of_mem_keys (d : List (String × ℚ)) (k : String)
    (hk : k ∈ d.map (fun p => p.1)) : (dictLookup k d).isSome = true := by
  induction d with
  | nil => simp at hk
  | cons q rest ih =>
    simp only [dictLookup]
    by_cases he : q.1 = k
    · rw [if_pos he]
      rfl
    · rw [if_neg he]
      apply ih
      simp only [List.map_cons, List.mem_cons] at hk
      rcases hk with h1 | h2
      · exact absurd h1.symm he
      · exact h2

lemma dictLookup_of_nodup_mem (d : List (String × ℚ)) (p : String × ℚ)
    (hnd : (d.map (fun p => p.1)).Nodup) (hp : p ∈ d) :
    dictLookup p.1 d = some p.2 := by
  induction d with
  | nil => cases hp
  | cons q rest ih =>
    rw [List.map_cons, List.nodup_cons] at hnd
    cases hp with
    | head => simp [dictLookup]
    | tail _ hmem =>
      simp only [dictLookup]
      by_cases he : q.1 = p.1
      · exfalso
        apply hnd.1
        rw [he]
        exact List.mem_map_of_mem _ hmem
      · rw [if_neg he]
        exact ih hnd.2 hmem

lemma updDictGo_complete (sc : ℚ) (od : List (String × ℚ)) :
    ∀ (ks : List String) (cur : List (String × ℚ)),
      ks.Nodup → (∀ k ∈ ks, (dictLookup k od).isSome = true) →
      updDictGo sc od cur ks =
        (cur.map (fun p => if p.1 ∈ ks then (p.1, ((dictLookup p.1 od).getD 0) * sc) else p),
         false) := by
  intro ks
  induction ks with
  | nil =>
    intro cur _ _
    simp [updDictGo]
  | cons k ks ih =>
    intro cur hnd hlk
    rw [List.nodup_cons] at hnd
    obtain ⟨ov, hov⟩ := Option.isSome_iff_exists.mp (hlk k (List.mem_cons_self k ks))
    simp only [updDictGo, hov]
    rw [ih (dictSetVal k (ov * sc) cur) hnd.2
      (fun k' hk' => hlk k' (List.mem_cons_of_mem k hk'))]
    unfold dictSetVal
    rw [List.map_map]
    refine Prod.ext ?_ rfl
    apply List.map_congr_left
    intro p _
    dsimp only [Function.comp]
    by_cases hpk : p.1 = k
    · rw [if_pos hpk]
      dsimp only
      rw [if_neg (by rw [hpk]; exact hnd.1),
          if_pos (by rw [hpk]; exact List.mem_cons_self k ks), hpk, hov]
      rfl
    · rw [if_neg hpk]
      by_cases hin : p.1 ∈ ks
      · rw [if_pos hin, if_pos (List.mem_cons_of_mem k hin)]
      · rw [if_neg hin, if_neg (by simp [List.mem_cons, hpk, hin])]

lemma applyT1_float_fresh (sc v : ℚ) (m : LoraModule)
    (hs : m.scaling = some (Scaling.floatS v)) (ho : m.originalScaling = none) :
    applyT1 sc m =
      ({ m with originalScaling := some (Scaling.floatS v),
                scaling := some (Scaling.floatS (v * sc)) }, true, false) := by
  simp [applyT1, hs, ho]

lemma applyT1_float_again (sc v ov : ℚ) (m : LoraModule)
    (hs : m.scaling = some (Scaling.floatS v))
    (ho : m.originalScaling = some (Scaling.floatS ov)) :
    applyT1 sc m =
      ({ m with originalScaling := some (Scaling.floatS ov),
                scaling := some (Scaling.floatS (ov * sc)) }, true, false) := by
  simp [applyT1, hs, ho]

lemma applyT1_dict_fresh (sc : ℚ) (d : List (String × ℚ)) (m : LoraModule)
    (hs : m.scaling = some (Scaling.dictS d)) (ho : m.originalScaling = none)
    (hnd : (d.map (fun p => p.1)).Nodup) :
    applyT1 sc m =
      ({ m with originalScaling := some (Scaling.dictS d),
                scaling := some (Scaling.dictS (d.map (fun p => (p.1, p.2 * sc)))) },
       true, false) := by
  have hres : updDictGo sc d d (d.map (fun p => p.1)) =
      (d.map (fun p => (p.1, p.2 * sc)), false) := by
    rw [updDictGo_complete sc d (d.map (fun p => p.1)) d hnd
      (fun k hk => dictLookup_isSome_of_mem_keys d k hk)]
    refine Prod.ext ?_ rfl
    apply List.map_congr_left
    intro p hp
    rw [if_pos (List.mem_map_of_mem _ hp), dictLookup_of_nodup_mem d p hnd hp]
    rfl
  simp [applyT1, hs, ho, hres]

lemma applyT1_dict_again (sc1 sc2 : ℚ) (od : List (String × ℚ)) (m : LoraModule)
    (hs : m.scaling = some (Scaling.dictS (od.map (fun p => (p.1, p.2 * sc1)))))
    (ho : m.originalScaling = some (Scaling.dictS od))
    (hnd : (od.map (fun p => p.1)).Nodup) :
    applyT1 sc2 m =
      ({ m with originalScaling := some (Scaling.dictS od),
                scaling := some (Scaling.dictS (od.map (fun p => (p.1, p.2 * sc2)))) },
       true, false) := by
  have hkeys : (od.map (fun p => (p.1, p.2 * sc1))).map (fun p => p.1) =
      od.map (fun p => p.1) := by
    rw [List.map_map]
    rfl
  have hres : updDictGo sc2 od (od.map (fun p => (p.1, p.2 * sc1)))
      ((od.map (fun p => (p.1, p.2 * sc1))).map (fun p => p.1)) =
      (od.map (fun p => (p.1, p.2 * sc2)), false) := by
    rw [updDictGo_complete sc2 od _ _ (by rw [hkeys]; exact hnd)
      (fun k hk => dictLookup_isSome_of_mem_keys od k (by rw [hkeys] at hk; exact hk))]
    refine Prod.ext ?_ rfl
    rw [List.map_map]
    apply List.map_congr_left
    intro p hp
    dsimp only [Function.comp]
    rw [if_pos (by rw [hkeys]; exact List.mem_map_of_mem _ hp),
        dictLookup_of_nodup_mem od p hnd hp]
    rfl
  rw [List.map_map] at hres
  simp [applyT1, hs, ho, hres]

lemma t1step_of_guard (sc : ℚ) (m : LoraModule)
    (hg : (strContains m.name loraTag && m.scaling.isSome) = true) :
    t1step sc m = (applyT1 sc m).1 := by
  unfold t1step
  rw [hg]
  rfl

lemma tier1_no_raise_map (sc : ℚ) (ms : List LoraModule) :
    (tier1 sc ms).2.2 = false → (tier1 sc ms).1 = ms.map (t1step sc) := by
  induction ms with
  | nil =>
    intro _
    rfl
  | cons m rest ih =>
    intro h
    cases hg : (strContains m.name loraTag && m.scaling.isSome) with
    | false =>
      simp only [tier1, hg, Bool.false_eq_true, if_false] at h ⊢
      rw [List.map_cons, t1step, hg]
      simp only [Bool.false_eq_true, if_false]
      exact congrArg (List.cons m) (ih h)
    | true =>
      simp only [tier1, hg, if_true] at h ⊢
      cases hr : (applyT1 sc m).2.2 with
      | true =>
        simp [hr] at h
      | false =>
        simp only [hr, Bool.false_eq_true, if_false] at h ⊢
        rw [List.map_cons, t1step_of_guard sc m hg]
        exact congrArg (List.cons (applyT1 sc m).1) (ih h)

lemma tier1_no_raise_of_forall (sc : ℚ) (ms : List LoraModule)
    (h : ∀ m ∈ ms, (applyT1 sc m).2.2 = false) : (tier1 sc ms).2.2 = false := by
  induction ms with
  | nil => rfl
  | cons m rest ih =>
    cases hg : (strContains m.name loraTag && m.scaling.isSome) with
    | false =>
      simp only [tier1, hg, Bool.false_eq_true, if_false]
      exact ih (fun m' hm' => h m' (List.mem_cons_of_mem m hm'))
    | true =>
      simp only [tier1, hg, if_true]
      rw [h m (List.mem_cons_self m rest)]
      simp only [Bool.false_eq_true, if_false]
      exact ih (fun m' hm' => h m' (List.mem_cons_of_mem m hm'))

lemma set_lora_scale_no_raise_state (env : Env) (st : Handler) (dec : Decoder) (q : ℚ)
    (hL : st.lora_loaded = true) (hU : st.use_lora = true) (hM : st.model = some dec)
    (hNR : env.namedModulesRaise = false)
    (hr : (tier1 (clamp01 q) dec.modules).2.2 = false) :
    (set_lora_scale env st q).2 =
      { st with lora_scale := clamp01 q,
                model := some { dec with modules := (tier1 (clamp01 q) dec.modules).1 } } := by
  unfold set_lora_scale
  rw [hL]
  simp only [Bool.not_true, Bool.false_eq_true, if_false]
  try dsimp only
  rw [hU]
  simp only [Bool.not_true, Bool.false_eq_true, if_false]
  try dsimp only
  rw [hM]
  try dsimp only
  rw [hNR]
  simp only [Bool.false_eq_true, if_false]
  try dsimp only
  rw [hr]
  simp only [Bool.false_eq_true, if_false]
  try dsimp only
  split <;> split <;> rfl

lemma t1step_twice (sc1 sc2 : ℚ) (m : LoraModule) (s0 : Scaling)
    (hname : strContains m.name loraTag = true)
    (hs : m.scaling = some s0) (ho : m.originalScaling = none)
    (hfd : ∀ d, s0 = Scaling.dictS d → (d.map (fun p => p.1)).Nodup)
    (hnotOther : s0 ≠ Scaling.otherS) :
    (t1step sc2 (t1step sc1 m)).originalScaling = some s0 ∧
    (t1step sc2 (t1step sc1 m)).scaling = some (mulScaling sc2 s0) := by
  have hg1 : (strContains m.name loraTag && m.scaling.isSome) = true := by
    rw [hname, hs]
    rfl
  cases s0 with
  | otherS => exact absurd rfl hnotOther
  | floatS v =>
    have h1 : t1step sc1 m =
        { m with originalScaling := some (Scaling.floatS v),
                 scaling := some (Scaling.floatS (v * sc1)) } := by
      rw [t1step_of_guard sc1 m hg1, applyT1_float_fresh sc1 v m hs ho]
    have h2 : t1step sc2 ({ m with originalScaling := some (Scaling.floatS v),
                                   scaling := some (Scaling.floatS (v * sc1)) }) =
        { m with originalScaling := some (Scaling.floatS v),
                 scaling := some (Scaling.floatS (v * sc2)) } := by
      rw [t1step_of_guard sc2 _ (by dsimp only; rw [hname]; rfl),
          applyT1_float_again sc2 (v * sc1) v
            ({ m with originalScaling := some (Scaling.floatS v),
                      scaling := some (Scaling.floatS (v * sc1)) }) rfl rfl]
    rw [h1, h2]
    exact ⟨rfl, rfl⟩
  | dictS d =>
    have hnd := hfd d rfl
    have h1 : t1step sc1 m =
        { m with originalScaling := some (Scaling.dictS d),
                 scaling := some (Scaling.dictS (d.map (fun p => (p.1, p.2 * sc1)))) } := by
      rw [t1step_of_guard sc1 m hg1, applyT1_dict_fresh sc1 d m hs ho hnd]
    have h2 : t1step sc2
        ({ m with originalScaling := some (Scaling.dictS d),
                  scaling := some (Scaling.dictS (d.map (fun p => (p.1, p.2 * sc1)))) }) =
        { m with originalScaling := some (Scaling.dictS d),
                 scaling := some (Scaling.dictS (d.map (fun p => (p.1, p.2 * sc2)))) } := by
      rw [t1step_of_guard sc2 _ (by dsimp only; rw [hname]; rfl),
          applyT1_dict_again sc1 sc2 d
            ({ m with originalScaling := some (Scaling.dictS d),
                      scaling := some (Scaling.dictS (d.map (fun p => (p.1, p.2 * sc1)))) })
            rfl rfl hnd]
    rw [h1, h2]
    exact ⟨rfl, rfl⟩

/-- C5: with an adapter loaded and enabled, calling `set_lora_scale 0.5`
and then `set_lora_scale 0.8` leaves every tier-1 adaptation-layer module
(`"lora_"` in its name, `scaling` attribute present, original captured on
the first touch) with live scaling equal to its original pre-scaling
value multiplied by `0.8` — `mulScaling (4/5)` of the value captured
before the first call, not of the intermediate `0.5`-scaled value — so
repeated calls are relative to the original and do not compound. The
hypotheses state that the module is fresh (original not yet captured,
dict scalings with duplicate-free keys as Python dicts guarantee) and
that neither pass raises. -/
theorem c5_setscale_relative_to_original (env : Env) (st : Handler) (dec : Decoder)
    (i : Nat) (m : LoraModule) (s0 : Scaling)
    (hL : st.lora_loaded = true) (hU : st.use_lora = true) (hM : st.model = some dec)
    (hNR : env.namedModulesRaise = false)
    (hi : dec.modules[i]? = some m)
    (hname : strContains m.name loraTag = true)
    (hs : m.scaling = some s0)
    (ho : m.originalScaling = none)
    (hfd : ∀ d, s0 = Scaling.dictS d → (d.map (fun p => p.1)).Nodup)
    (hnotOther : s0 ≠ Scaling.otherS)
    (hr1 : (tier1 (1/2) dec.modules).2.2 = false)
    (hr2 : (tier1 (4/5) ((tier1 (1/2) dec.modules).1)).2.2 = false) :
    ∃ dec2 m2,
      (set_lora_scale env (set_lora_scale env st (1/2)).2 (4/5)).2.model = some dec2 ∧
      dec2.modules[i]? = some m2 ∧
      m2.originalScaling = some s0 ∧
      m2.scaling = some (mulScaling (4/5) s0) := by
  have clampH : clamp01 ((1 : ℚ)/2) = 1/2 := clamp01_of_mem _ (by norm_num) (by norm_num)
  have clampF : clamp01 ((4 : ℚ)/5) = 4/5 := clamp01_of_mem _ (by norm_num) (by norm_num)
  have E1 : (set_lora_scale env st (1/2)).2 =
      { st with lora_scale := clamp01 (1/2),
                model := some { dec with modules := (tier1 (clamp01 (1/2)) dec.modules).1 } } :=
    set_lora_scale_no_raise_state env st dec (1/2) hL hU hM hNR (by rw [clampH]; exact hr1)
  rw [clampH] at E1
  rw [E1]
  have E2 := set_lora_scale_no_raise_state env
    { st with lora_scale := 1/2,
              model := some { dec with modules := (tier1 (1/2) dec.modules).1 } }
    { dec with modules := (tier1 (1/2) dec.modules).1 }
    (4/5) hL hU rfl hNR (by rw [clampF]; exact hr2)
  rw [clampF] at E2
  rw [E2]
  refine ⟨_, t1step (4/5) (t1step (1/2) m), rfl, ?_, ?_, ?_⟩
  · show ((tier1 (4/5) ((tier1 (1/2) dec.modules).1)).1)[i]? = _
    rw [tier1_no_raise_map (4/5) _ hr2, tier1_no_raise_map (1/2) _ hr1,
        List.getElem?_map, List.getElem?_map, hi]
    rfl
  · exact (t1step_twice (1/2) (4/5) m s0 hname hs ho hfd hnotOther).1
  · exact (t1step_twice (1/2) (4/5) m s0 hname hs ho hfd hnotOther).2

/-- C5 witness: on the two-module fixture (one numeric scaling, one
dict scaling), neither pass raises and the float module at index 0 ends
with its original value times `4/5`. -/
theorem c5_setscale_relative_to_original_witness :
    (strContains mFloat.name loraTag = true ∧
     (tier1 (1/2) decMods.modules).2.2 = false ∧
     (tier1 (4/5) ((tier1 (1/2) decMods.modules).1)).2.2 = false) ∧
    (∃ dec2 m2,
      (set_lora_scale envQuiet (set_lora_scale envQuiet stMods (1/2)).2 (4/5)).2.model =
        some dec2 ∧
      dec2.modules[0]? = some m2 ∧
      m2.originalScaling = some (Scaling.floatS 2) ∧
      m2.scaling = some (mulScaling (4/5) (Scaling.floatS 2))) := by
  have hr1 : (tier1 (1/2) decMods.modules).2.2 = false := by
    apply tier1_no_raise_of_forall
    intro mm hmm
    have hx : mm = mFloat ∨ mm = mDict := by simpa [decMods] using hmm
    rcases hx with h | h <;> subst h
    · rw [applyT1_float_fresh (1/2) 2 mFloat rfl rfl]
    · rw [applyT1_dict_fresh (1/2) ([(adapterName, 4)]) mDict rfl rfl (by decide)]
  have eF1 : t1step (1/2) mFloat = mFloatA := by
    rw [t1step_of_guard (1/2) mFloat (by decide),
        applyT1_float_fresh (1/2) 2 mFloat rfl rfl]
    rfl
  have eD1 : t1step (1/2) mDict = mDictA := by
    rw [t1step_of_guard (1/2) mDict (by decide),
        applyT1_dict_fresh (1/2) ([(adapterName, 4)]) mDict rfl rfl (by decide)]
    rfl
  have hmap1 : (tier1 (1/2) decMods.modules).1 = [mFloatA, mDictA] := by
    rw [tier1_no_raise_map (1/2) decMods.modules hr1]
    show [t1step (1/2) mFloat, t1step (1/2) mDict] = _
    rw [eF1, eD1]
  have hr2 : (tier1 (4/5) ((tier1 (1/2) decMods.modules).1)).2.2 = false := by
    rw [hmap1]
    apply tier1_no_raise_of_forall
    intro mm hmm
    have hx : mm = mFloatA ∨ mm = mDictA := by simpa using hmm
    rcases hx with h | h <;> subst h
    · rw [applyT1_float_again (4/5) (2 * (1/2)) 2 mFloatA rfl rfl]
    · rw [applyT1_dict_again (1/2) (4/5) ([(adapterName, 4)]) mDictA rfl rfl (by decide)]
  refine ⟨⟨by decide, hr1, hr2⟩, ?_⟩
  exact c5_setscale_relative_to_original envQuiet stMods decMods 0 mFloat (Scaling.floatS 2)
    rfl rfl rfl rfl rfl (by decide) rfl rfl
    (fun d hd => by cases hd) (by decide) hr1 hr2
